import Mathlib

/-!
Verification development for the Research-as-a-Code repository.

The definitions below are a shallow embedding of the repository's core:

* `src/aira/src/aiq_aira/udf_integration.py` — the strategy compiler
  (`compile_strategy`), the sandboxed executor (`execute_strategy` and the
  execution namespace it builds), and the integration entry point
  (`execute_dynamic_strategy`);
* `src/aira/src/aiq_aira/hackathon_agent.py` — the agent state, the planner
  node, the dynamic-strategy node, the router (`route_after_planner`) and the
  graph wiring;
* `src/backend/main.py` — the `/research` request handler's result assembly
  (`execution_path` and the response record).

External collaborators (LLM calls, RAG/web transports, LangGraph scheduling)
are modelled as explicit inputs: each embedded function takes the outcome of
the collaborator call as an argument and computes exactly what the Python code
computes from it.  Python `dict`s with string keys are association lists,
Python `None`/key-absence is `Option`, and a raised exception is the `error`
side of `Except`.
-/

/-! ## A model of Python JSON values and of the `json` module

`hackathon_agent.py` calls `json.loads` (in `route_after_planner`),
`json.dumps` (in `planner_node`) and `parse_json_markdown`.  We model JSON
values as an inductive type and give executable `json_loads` / `json_dumps`
functions mirroring the CPython `json` module on the inputs that occur here
(objects, arrays, strings, integers, booleans, null; float fidelity and the
`ensure_ascii` escaping of non-ASCII text are not needed by any claim and are
approximated). -/

inductive Json where
  | null
  | bool (b : Bool)
  | num (n : Int)
  | str (s : String)
  | arr (items : List Json)
  | obj (fields : List (String × Json))
deriving Inhabited, Repr

/-- Whitespace accepted between JSON tokens (exactly the four characters the
CPython decoder skips). -/
def isJsonWs (c : Char) : Bool :=
  c = ' ' || c = '\t' || c = '\n' || c = '\r'

def dropWs : List Char → List Char
  | [] => []
  | c :: rest => if isJsonWs c then dropWs rest else c :: rest

def isDigitChar (c : Char) : Bool := '0' ≤ c && c ≤ '9'

/-- Does the character list start with the given pattern? -/
def startsWithChars : List Char → List Char → Bool
  | _, [] => true
  | [], _ :: _ => false
  | c :: cs, p :: ps => c = p && startsWithChars cs ps

/-- Split a leading run of decimal digits off a character list. -/
def readDigits (cs : List Char) : List Char × List Char :=
  match cs with
  | c :: rest =>
    if isDigitChar c then
      match readDigits rest with
      | (ds, r) => (c :: ds, r)
    else ([], cs)
  | [] => ([], [])

def digitsVal (ds : List Char) : Nat :=
  ds.foldl (fun a c => a * 10 + (c.toNat - 48)) 0

def hexDigitVal (c : Char) : Option Nat :=
  let n := c.toNat
  if 48 ≤ n ∧ n ≤ 57 then some (n - 48)
  else if 97 ≤ n ∧ n ≤ 102 then some (n - 87)
  else if 65 ≤ n ∧ n ≤ 70 then some (n - 55)
  else none

def hexQuad (a b c d : Char) : Option Nat :=
  match hexDigitVal a, hexDigitVal b, hexDigitVal c, hexDigitVal d with
  | some w, some x, some y, some z => some (4096 * w + 256 * x + 16 * y + z)
  | _, _, _, _ => none

/-- The single-character escape sequences of a JSON string literal. -/
def escapeCharFor (e : Char) : Option Char :=
  List.lookup e
    [('"', '"'), ('\\', '\\'), ('/', '/'), ('n', '\n'), ('t', '\t'), ('r', '\r'),
     ('b', Char.ofNat 8), ('f', Char.ofNat 12)]

/-- Decode the body of a JSON string literal (the opening quote already
consumed), handling the escape sequences the CPython decoder accepts. -/
def readStringBody (acc : List Char) : List Char → Option (String × List Char)
  | [] => none
  | c :: rest =>
    if c = '"' then some (String.mk acc.reverse, rest)
    else if c = '\\' then
      match rest with
      | 'u' :: a :: b :: c2 :: d :: rest2 =>
        match hexQuad a b c2 d with
        | some n => readStringBody (Char.ofNat n :: acc) rest2
        | none => none
      | e :: rest2 =>
        match escapeCharFor e with
        | some ch => readStringBody (ch :: acc) rest2
        | none => none
      | [] => none
    else readStringBody (c :: acc) rest

/-- Consume the digits of an exponent part (after the e/E marker). -/
def skipExpDigits (cs : List Char) : List Char :=
  (readDigits (match cs with | '+' :: r => r | '-' :: r => r | _ => cs)).2

/-- Consume an optional fraction and an optional exponent. -/
def skipFracExp (cs : List Char) : List Char :=
  let afterFrac := match cs with
    | '.' :: r => (readDigits r).2
    | _ => cs
  match afterFrac with
  | 'e' :: r => skipExpDigits r
  | 'E' :: r => skipExpDigits r
  | _ => afterFrac

/-- Parse a JSON number; only the integer value is retained (the claims never
inspect fractional values), but fraction and exponent syntax is consumed. -/
def readNumber (cs : List Char) : Option (Int × List Char) :=
  match cs with
  | '-' :: r =>
    match readDigits r with
    | ([], _) => none
    | (ds, r2) => some (-(digitsVal ds : Int), skipFracExp r2)
  | _ =>
    match readDigits cs with
    | ([], _) => none
    | (ds, r2) => some ((digitsVal ds : Int), skipFracExp r2)

/-- Skip whitespace and consume one expected punctuation character. -/
def expectTok (ch : Char) (cs : List Char) : Option (List Char) :=
  match dropWs cs with
  | c :: rest => if c = ch then some rest else none
  | [] => none

mutual

/-- Fuel-indexed recursive-descent JSON value parser. -/
def parseJsonValue (fuel : Nat) (cs : List Char) : Option (Json × List Char) :=
  match fuel with
  | 0 => none
  | fuel + 1 =>
    match dropWs cs with
    | [] => none
    | c :: rest =>
      if startsWithChars (c :: rest) "null".toList then
        some (Json.null, (c :: rest).drop 4)
      else if startsWithChars (c :: rest) "true".toList then
        some (Json.bool true, (c :: rest).drop 4)
      else if startsWithChars (c :: rest) "false".toList then
        some (Json.bool false, (c :: rest).drop 5)
      else if c = '"' then
        (readStringBody [] rest).map fun p => (Json.str p.1, p.2)
      else if c = '[' then
        match expectTok ']' rest with
        | some r2 => some (Json.arr [], r2)
        | none => (parseJsonItems fuel rest).map fun p => (Json.arr p.1, p.2)
      else if c = '\x7b' then
        match expectTok '\x7d' rest with
        | some r2 => some (Json.obj [], r2)
        | none => (parseJsonFields fuel rest).map fun p => (Json.obj p.1, p.2)
      else if c = '-' || isDigitChar c then
        (readNumber (c :: rest)).map fun p => (Json.num p.1, p.2)
      else none

/-- One-or-more comma-separated array items, ending at the closing bracket. -/
def parseJsonItems (fuel : Nat) (cs : List Char) : Option (List Json × List Char) :=
  match fuel with
  | 0 => none
  | fuel + 1 =>
    match parseJsonValue fuel cs with
    | none => none
    | some (v, r) =>
      match expectTok ',' r with
      | some r2 => (parseJsonItems fuel r2).map fun p => (v :: p.1, p.2)
      | none => (expectTok ']' r).map fun r2 => ([v], r2)

/-- One-or-more comma-separated object members, ending at the closing brace. -/
def parseJsonFields (fuel : Nat) (cs : List Char) : Option (List (String × Json) × List Char) :=
  match fuel with
  | 0 => none
  | fuel + 1 =>
    match expectTok '"' cs with
    | none => none
    | some r =>
      match readStringBody [] r with
      | none => none
      | some (k, r2) =>
        match expectTok ':' r2 with
        | none => none
        | some r3 =>
          match parseJsonValue fuel r3 with
          | none => none
          | some (v, r4) =>
            match expectTok ',' r4 with
            | some r5 => (parseJsonFields fuel r5).map fun p => ((k, v) :: p.1, p.2)
            | none => (expectTok '\x7d' r4).map fun r5 => ([(k, v)], r5)

end

/-- Model of Python `json.loads`: parse the whole input (no trailing data). -/
def json_loads (s : String) : Option Json :=
  match parseJsonValue (2 * s.length + 4) s.toList with
  | some (v, rest) => if dropWs rest = [] then some v else none
  | none => none

/-- Python `dict` construction keeps the LAST value bound to a duplicated key,
so dictionary lookup on our field list is last-occurrence lookup. -/
def pyDictGet (fields : List (String × Json)) (k : String) : Option Json :=
  (fields.reverse.find? fun p => p.1 == k).map Prod.snd

/-- Render one Nat as four lowercase hex digits, as in a JSON escape. -/
def hex4 (n : Nat) : String :=
  let d := fun (m : Nat) =>
    if m < 10 then Char.ofNat (48 + m) else Char.ofNat (87 + m)
  String.mk [d (n / 4096 % 16), d (n / 256 % 16), d (n / 16 % 16), d (n % 16)]

/-- Escaping for `json_dumps`, mirroring CPython on ASCII content (the
`ensure_ascii` escaping of characters above U+FFFF is approximated by a
single escape rather than a surrogate pair; no claim inspects such output). -/
def escapeJsonChar (c : Char) : String :=
  if c = '"' then "\\\""
  else if c = '\\' then "\\\\"
  else if c = '\n' then "\\n"
  else if c = '\t' then "\\t"
  else if c = '\r' then "\\r"
  else if c.toNat < 32 || c.toNat > 126 then "\\u" ++ hex4 c.toNat
  else String.singleton c

def escapeJsonString (s : String) : String :=
  s.toList.foldl (fun acc c => acc ++ escapeJsonChar c) ""

mutual

/-- Model of Python `json.dumps` with default arguments: item separator
comma-space, key separator colon-space. -/
def json_dumps : Json → String
  | Json.null => "null"
  | Json.bool true => "true"
  | Json.bool false => "false"
  | Json.num n => toString n
  | Json.str s => "\"" ++ escapeJsonString s ++ "\""
  | Json.arr items => "[" ++ dumpsItems items ++ "]"
  | Json.obj fields => "\x7b" ++ dumpsFields fields ++ "\x7d"

def dumpsItems : List Json → String
  | [] => ""
  | [v] => json_dumps v
  | v :: rest => json_dumps v ++ ", " ++ dumpsItems rest

def dumpsFields : List (String × Json) → String
  | [] => ""
  | [(k, v)] => "\"" ++ escapeJsonString k ++ "\": " ++ json_dumps v
  | (k, v) :: rest =>
    "\"" ++ escapeJsonString k ++ "\": " ++ json_dumps v ++ ", " ++ dumpsFields rest

end

/-- Python `str()` applied to a parsed JSON value, as used by the planner's
f-string log message.  Strings render raw; containers render with Python repr
conventions (single quotes; escape subtleties inside repr are approximated —
no claim inspects container renderings). -/
def pyStr (j : Json) : String :=
  match j with
  | Json.str s => s
  | Json.null => "None"
  | Json.bool true => "True"
  | Json.bool false => "False"
  | Json.num n => toString n
  | Json.arr _ => "[...]"
  | Json.obj _ => "\x7b...\x7d"

/-! ## udf_integration.py — result record, compiler, executor, integration -/

/-- A Python `Dict[str, str]` source record, as an association list (CPython
dict: unique keys with last-assignment-wins, so lookup is last-occurrence). -/
abbrev SrcDict := List (String × String)

/-- Python `d.get(k, dflt)` on a string-valued dict. -/
def srcGet (d : SrcDict) (k dflt : String) : String :=
  ((d.reverse.find? fun p => p.1 == k).map Prod.snd).getD dflt

/-- The `UDFExecutionResult` dataclass (udf_integration.py lines 39-46). -/
structure UDFExecutionResult where
  success : Bool
  synthesized_report : String
  sources : List SrcDict
  execution_log : List String
  error : Option String
deriving Repr, DecidableEq

/-- Whitespace for Python `str.strip` (ASCII whitespace; the rarely seen
Unicode space classes Python also strips never occur in the sources). -/
def pyWs (c : Char) : Bool :=
  c = ' ' || c = '\t' || c = '\n' || c = '\r' || c.toNat = 11 || c.toNat = 12

def dropWhileWs : List Char → List Char
  | [] => []
  | c :: rest => if pyWs c then dropWhileWs rest else c :: rest

/-- Python `s.strip()`. -/
def pyStrip (s : String) : String :=
  String.mk ((dropWhileWs (dropWhileWs s.toList).reverse).reverse)

/-- Python `s.startswith(pre)` / the prefix test on strings. -/
def strStartsWith (s pre : String) : Bool :=
  startsWithChars s.toList pre.toList

/-- Fuel-indexed worker for Python `str.split(sep)`: scan left to right,
splitting at each non-overlapping occurrence of the (non-empty) separator. -/
def pySplitAux (fuel : Nat) (sep cs acc : List Char) : List (List Char) :=
  match fuel with
  | 0 => [acc.reverse]
  | fuel + 1 =>
    match cs with
    | [] => [acc.reverse]
    | c :: rest =>
      if startsWithChars (c :: rest) sep then
        acc.reverse :: pySplitAux fuel sep (List.drop sep.length (c :: rest)) []
      else
        pySplitAux fuel sep rest (c :: acc)

/-- Python `s.split(sep)` for a non-empty separator. -/
def pySplit (s sep : String) : List String :=
  (pySplitAux (s.length + 1) sep.toList s.toList []).map String.mk

/-- Python `pat in s` for a non-empty pattern `pat`. -/
def pyContains (s pat : String) : Bool := (pySplit s pat).length ≥ 2

/-- The code-extraction step of `UDFStrategyCompiler.compile_strategy`
(udf_integration.py lines 117-123): strip the response, then peel a
markdown code fence if one is present.  There is no failure case: a
response with no fence is returned unchanged. -/
def extract_code (content : String) : String :=
  let code := pyStrip content
  if pyContains code "```python" then
    pyStrip (((pySplit ((pySplit code "```python").getD 1 "") "```").getD 0 ""))
  else if pyContains code "```" then
    pyStrip (((pySplit ((pySplit code "```").getD 1 "") "```").getD 0 ""))
  else code

/-- Model of `UDFStrategyCompiler.compile_strategy` (lines 95-126), with the LLM
round-trip passed in as its outcome: either the response content, or the
message of the exception the call raised (which propagates to the caller). -/
def compile_strategy (llmCall : Except String String) : Except String String :=
  match llmCall with
  | Except.error e => Except.error e
  | Except.ok content => Except.ok (extract_code content)

/-- What the compiled strategy code returned to the executor: a Python dict
with the three optional keys the executor reads, or a value of some other
type (carrying `type(result)` rendered as text, as used in the error
message).  Values of unexpected types under the `report`/`sources`/`log`
keys are not modelled (no claim depends on them). -/
inductive StrategyReturn where
  | pyDict (report : Option String) (sources : Option (List SrcDict)) (log : Option (List String))
  | nonDict (typeName : String)
deriving Repr, DecidableEq

/-- The observable behaviour of one `exec`+await of compiled strategy code
inside the executor's namespace: the entries the code appended to the
caller-supplied `execution_log` and `sources` accumulators before finishing,
and its outcome — a raised exception (including a `SyntaxError` from `exec`
itself) or a returned value. -/
structure SandboxRun where
  logsAppended : List String
  sourcesAppended : List SrcDict
  outcome : Except String StrategyReturn
deriving Repr

/-- Model of `UDFStrategyExecutor.execute_strategy` (lines 293-352), as a function of
the sandbox run it performed.  On success the result fields come from the
returned dict (with `""`/`[]`/`[]` defaults); on any caught exception —
parse error, raised exception, or the `ValueError` for a non-dict return —
the result is a failure carrying `str(e)` and the `execution_log`
accumulator as it stood, with empty report and sources. -/
def execute_strategy (run : SandboxRun) : UDFExecutionResult :=
  match run.outcome with
  | Except.error e =>
    ⟨false, "", [], run.logsAppended, some e⟩
  | Except.ok (StrategyReturn.nonDict t) =>
    ⟨false, "", [], run.logsAppended, some ("Strategy must return a dict, got " ++ t)⟩
  | Except.ok (StrategyReturn.pyDict r s l) =>
    ⟨true, r.getD "", s.getD [], l.getD [], none⟩

/-- What a name in the executor's namespace is bound to. -/
inductive Binding where
  | toolSearchRag
  | toolSearchWeb
  | toolSynthesizeFindings
  | contextRecord
  | executionLogAccumulator
  | sourcesAccumulator
  | moduleJson
  | moduleAsyncio
  | loggerObject
deriving Repr, DecidableEq

/-- The namespace dict `execute_strategy` builds for `exec` (lines 310-320),
binding name by name exactly as in the source. -/
def execution_namespace : List (String × Binding) :=
  [("search_rag", Binding.toolSearchRag),
   ("search_web", Binding.toolSearchWeb),
   ("synthesize_findings", Binding.toolSynthesizeFindings),
   ("context", Binding.contextRecord),
   ("execution_log", Binding.executionLogAccumulator),
   ("sources", Binding.sourcesAccumulator),
   ("json", Binding.moduleJson),
   ("asyncio", Binding.moduleAsyncio),
   ("logger", Binding.loggerObject)]

/-- The binding names the claim allows in the execution scope: the three tool
capabilities, the context record, and the two caller-supplied accumulators. -/
def claim_allowed_bindings : List String :=
  ["search_rag", "search_web", "synthesize_findings", "context", "sources", "execution_log"]

/-- Model of `UDFIntegration.execute_dynamic_strategy` (lines 389-428): compile, and
on a compilation exception return a failed result with the distinguishing
prefix; otherwise run the compiled code.  `sandbox` maps the compiled code
text to the behaviour of `exec`-ing and awaiting it (the executor itself is
deterministic given that behaviour). -/
def execute_dynamic_strategy (compileCall : Except String String)
    (sandbox : String → SandboxRun) : UDFExecutionResult :=
  match compile_strategy compileCall with
  | Except.error e =>
    ⟨false, "", [], [], some ("Compilation error: " ++ e)⟩
  | Except.ok code => execute_strategy (sandbox code)

/-! ## hackathon_agent.py — agent state, nodes, router, graph wiring -/

/-- Modelled from the spec: `queries: ordered sequence of Query` — the
`GeneratedQuery` schema class lives in `aiq_aira/schema.py`, which is not
part of the sources here; only the field's presence in the state matters. -/
structure GeneratedQuery where
  query : String
deriving Repr, DecidableEq

/-- The success-branch `udf_result` update value is a Python dict with keys
`success`, `report`, `sources`; the failure branches write `success` and
`error`.  Outer `Option` on a field models key presence; `error`'s inner
`Option` is the Python value (which is `result.error`, itself optional). -/
structure UdfResultDict where
  success : Bool
  report : Option String
  sources : Option (List SrcDict)
  error : Option (Option String)
deriving Repr, DecidableEq

/-- The `HackathonAgentState` record (hackathon_agent.py lines 48-81).  `udf_result` is
`none` for the initial empty dict `\x7b\x7d` and `some d` once a node has
written a real result dict; `udf_strategy` is a JSON value because the
planner can store a non-string `plan` field there. -/
structure HackathonAgentState where
  research_prompt : String
  report_organization : String
  collection : String
  search_web : Bool
  plan : String
  queries : List GeneratedQuery
  web_research_results : List String
  citations : String
  running_summary : String
  udf_strategy : Json
  udf_result : Option UdfResultDict
  final_report : String
  logs : List String
deriving Repr

/-- A node's partial state update: `some` on a field models the key being
present in the returned dict.  `logs` is the append-only channel (annotated
`operator.add` in the state schema), so an absent key is the empty delta. -/
structure NodeUpdate where
  plan : Option String
  queries : Option (List GeneratedQuery)
  web_research_results : Option (List String)
  citations : Option String
  running_summary : Option String
  udf_strategy : Option Json
  udf_result : Option UdfResultDict
  final_report : Option String
  logs : List String
deriving Repr

/-- LangGraph's merge of a node's partial update into the running state:
field-level replacement for every key present in the update, except `logs`,
which is concatenated (the `Annotated[List[str], operator.add]` channel). -/
def applyUpdate (st : HackathonAgentState) (u : NodeUpdate) : HackathonAgentState :=
  ⟨st.research_prompt,
   st.report_organization,
   st.collection,
   st.search_web,
   u.plan.getD st.plan,
   u.queries.getD st.queries,
   u.web_research_results.getD st.web_research_results,
   u.citations.getD st.citations,
   u.running_summary.getD st.running_summary,
   u.udf_strategy.getD st.udf_strategy,
   match u.udf_result with
   | some d => some d
   | none => st.udf_result,
   u.final_report.getD st.final_report,
   st.logs ++ u.logs⟩

/-- The planner's interaction with its collaborators, abstracted to its
outcome: the streamed LLM call either raised (`raised`, with the exception
message) or delivered response text; `responded` carries the result of
`parse_json_markdown` on that text (`none` when parsing raised). -/
inductive PlannerCall where
  | raised (msg : String)
  | responded (parsed : Option Json)

/-- The update returned by `planner_node`'s `except` branch
(hackathon_agent.py lines 146-152). -/
def planner_fallback : NodeUpdate :=
  ⟨some "\x7b\"strategy\": \"SIMPLE_RAG\"\x7d", none, none, none, none,
   some (Json.str ""), none, none,
   ["⚠️ Planning error, defaulting to SIMPLE_RAG"]⟩

/-- Python `j == s` for a string literal `s`: true exactly when `j` is that
string. -/
def jsonIsStr (j : Json) (s : String) : Bool :=
  match j with
  | Json.str t => t = s
  | _ => false

/-- Model of `planner_node` (lines 88-152).  The streaming loop over the LLM call sits
OUTSIDE the `try`, so an exception from the call itself propagates out of the
node (`Except.error`); only the parse-and-build section is guarded, and any
exception there — unparseable text, or `.get` on a parsed non-dict — yields
the SIMPLE_RAG fallback update. -/
def planner_node : PlannerCall → Except String NodeUpdate
  | PlannerCall.raised msg => Except.error msg
  | PlannerCall.responded none => Except.ok planner_fallback
  | PlannerCall.responded (some decision) =>
    match decision with
    | Json.obj fields =>
      let strategy := (pyDictGet fields "strategy").getD (Json.str "SIMPLE_RAG")
      let rationale := (pyDictGet fields "rationale").getD (Json.str "")
      let planVal := (pyDictGet fields "plan").getD (Json.str "")
      let logMsg := "✅ Strategy: " ++ pyStr strategy ++ "\n💡 Rationale: " ++ pyStr rationale
      Except.ok ⟨some (json_dumps decision), none, none, none, none,
        some (if jsonIsStr strategy "DYNAMIC_STRATEGY" then planVal else Json.str ""),
        none, none, [logMsg]⟩
    | _ => Except.ok planner_fallback

/-- Python `str()` of an `Optional[str]`, as interpolated by an f-string. -/
def optStr : Option String → String
  | none => "None"
  | some s => s

/-- One line of the citation block built in `dynamic_strategy_node`
(lines 201-204): `src.get` falls back to `title` only when the `url` KEY is
absent, and to the literal defaults otherwise. -/
def citationLine (src : SrcDict) : String :=
  "- [" ++ srcGet src "source" "unknown" ++ "] " ++ srcGet src "url" (srcGet src "title" "N/A")

/-- The `"\n".join(...)` citation formatting of `dynamic_strategy_node`. -/
def format_citations (sources : List SrcDict) : String :=
  String.mk (List.intercalate "\n".toList ((sources.map citationLine).map String.toList))

/-- Model of `dynamic_strategy_node` (lines 155-222), as a function of whether the
UDF integration is configured and of the `UDFExecutionResult` the
integration returned.  Note which keys each branch's update carries: only
the success branch writes `running_summary` and `citations`. -/
def dynamic_strategy_node (integrationConfigured : Bool)
    (result : UDFExecutionResult) : NodeUpdate :=
  if integrationConfigured = false then
    ⟨none, none, none, none, none, none,
     some ⟨false, none, none, some (some "UDF integration not configured")⟩,
     none, ["❌ UDF integration not configured"]⟩
  else if result.success then
    ⟨none, none, none, some (format_citations result.sources),
     some result.synthesized_report, none,
     some ⟨true, some result.synthesized_report, some result.sources, none⟩,
     none, ["✅ UDF strategy execution complete"]⟩
  else
    ⟨none, none, none, none, none, none,
     some ⟨false, none, none, some result.error⟩,
     none, ["❌ UDF execution failed: " ++ optStr result.error]⟩

/-- Model of `simple_rag_pipeline` (lines 225-259): the three steps are external
collaborators (`aiq_aira/nodes.py` is outside the sources), so the node is
modelled as a function of the `running_summary` and `citations` the stepped
state holds after them; the returned update carries exactly those two fields
plus the completion log entry. -/
def simple_rag_pipeline (summaryAfterSteps citationsAfterSteps : String) : NodeUpdate :=
  ⟨none, none, none, some citationsAfterSteps, some summaryAfterSteps,
   none, none, none, ["✅ Simple RAG pipeline complete"]⟩

/-- Model of `final_report_node` (lines 262-282): `finalize_summary` is an external
collaborator; `finalizeReport` is the `final_report` key of its result
(`none` when absent), defaulted to the state's `running_summary`. -/
def final_report_node (finalizeReport : Option String)
    (st : HackathonAgentState) : NodeUpdate :=
  ⟨none, none, none, none, none, none, none,
   some (finalizeReport.getD st.running_summary),
   ["🎉 Research complete! Report ready for download."]⟩

/-- Model of `route_after_planner` (lines 289-305): a pure function of `state.plan`
— it performs `json.loads` and a field lookup, no I/O.  The bare `except`
catches both a `loads` failure and `.get` on a non-dict. -/
def route_after_planner (plan : String) : String :=
  match json_loads plan with
  | none => "simple_rag"
  | some (Json.obj fields) =>
    match pyDictGet fields "strategy" with
    | some (Json.str s) => if s = "DYNAMIC_STRATEGY" then "dynamic_strategy" else "simple_rag"
    | some _ => "simple_rag"
    | none => "simple_rag"
  | some _ => "simple_rag"

/-- The unconditional edges of `create_hackathon_agent_graph`
(lines 337-351); the only conditional edge set is the one after `planner`,
whose targets are computed by `route_after_planner`. -/
def graph_edges : List (String × String) :=
  [("dynamic_strategy", "final_report"),
   ("simple_rag", "final_report"),
   ("final_report", "END")]

/-! ## backend/main.py — the /research handler's observable result -/

/-- The `ResearchResponse` model returned by `generate_research`. -/
structure ResearchResponse where
  final_report : String
  citations : String
  logs : List String
  execution_path : String
deriving Repr, DecidableEq

/-- The initial state `generate_research` builds (main.py lines 373-387). -/
def initial_state (topic reportOrg coll : String) (searchWeb : Bool) : HackathonAgentState :=
  ⟨topic, reportOrg, coll, searchWeb, "", [], [], "", "", Json.str "", none, "", []⟩

/-- The path determination on the final state (main.py line 424):
`"UDF" if final_state.get("udf_result", \x7b\x7d).get("success") else "Simple RAG"` —
i.e. truthiness of the `success` key of whatever dict `udf_result` holds. -/
def execution_path (st : HackathonAgentState) : String :=
  match st.udf_result with
  | some d => if d.success then "UDF" else "Simple RAG"
  | none => "Simple RAG"

/-- The response `generate_research` assembles from the final state
(main.py lines 426-431). -/
def research_response (st : HackathonAgentState) : ResearchResponse :=
  ⟨st.final_report, st.citations, st.logs, execution_path st⟩

/-! ## Concrete scenarios used by the theorems -/

/-- A sandbox run whose code returned an empty dict: no exception, but none
of the `report`/`sources`/`log` keys. -/
def emptyDictRun : SandboxRun := ⟨[], [], Except.ok (StrategyReturn.pyDict none none none)⟩

/-- A compiler-LLM response that contains no code and no markdown fence. -/
def noCodeResponse : String := "I cannot generate code for that."

/-- The behaviour of `exec` on text that is not valid Python: a
`SyntaxError` raised before any log entry is appended. -/
def syntaxErrorSandbox : String → SandboxRun :=
  fun _ => ⟨[], [], Except.error "invalid syntax (<string>, line 2)"⟩

/-- A sandbox run that appended two log lines and then raised. -/
def twoLinesThenRaiseRun : SandboxRun :=
  ⟨["Searching RAG for tariffs", "Searching web for tariffs"], [],
   Except.error "KeyError: \x27content\x27"⟩

/-- The invariant C3 claims of every execution result, encoded as a Boolean
for refutation: success with a non-empty report, or failure with a non-empty
error message.  (This definition follows the CLAIM's words, not the source;
it exists only to be compared with what `execute_strategy` produces.) -/
def c3ClaimedInvariant (r : UDFExecutionResult) : Bool :=
  (r.success && !(r.synthesized_report == "")) ||
  (!r.success && (match r.error with | some m => !(m == "") | none => false))

/-- A planner decision choosing the dynamic branch. -/
def c2PlannerDecision : Json :=
  Json.obj [("strategy", Json.str "DYNAMIC_STRATEGY"),
            ("rationale", Json.str "multi-domain synthesis"),
            ("plan", Json.str "search the web, then synthesize")]

/-- The planner update for that decision (the planner call succeeded and the
response parsed). -/
def c2PlannerUpdate : NodeUpdate :=
  match planner_node (PlannerCall.responded (some c2PlannerDecision)) with
  | Except.ok u => u
  | Except.error _ => planner_fallback

/-- State after the planner, for the request of end-to-end scenario 1. -/
def c2StateAfterPlanner : HackathonAgentState :=
  applyUpdate
    (initial_state "Impact of tariffs on electronics" "intro/analysis/conclusion" "" true)
    c2PlannerUpdate

/-- A dynamic execution that failed at compilation (the compiler LLM call
raised). -/
def c2FailedResult : UDFExecutionResult :=
  execute_dynamic_strategy (Except.error "LLM request timed out") syntaxErrorSandbox

/-- Final state of the run: planner, then the failing dynamic branch, then
the final-report node (whose external finalizer returned nothing). -/
def c2FinalState : HackathonAgentState :=
  let st2 := applyUpdate c2StateAfterPlanner (dynamic_strategy_node true c2FailedResult)
  applyUpdate st2 (final_report_node none st2)

/-! ## Shared helper lemmas -/

/-- Case analysis on the executor: a result is successful exactly when its
error field is absent, and every failed result has an empty report and an
empty source list. -/
theorem execute_strategy_shape (run : SandboxRun) :
    ((execute_strategy run).success = true ↔ (execute_strategy run).error = none) ∧
    ((execute_strategy run).success = false →
      (execute_strategy run).synthesized_report = "" ∧ (execute_strategy run).sources = []) := by
  rcases run with ⟨l, s, o⟩
  rcases o with e | v
  · simp [execute_strategy]
  · cases v <;> simp [execute_strategy]

/-- Unfolding equation: a successful compilation hands the extracted code to
the executor. -/
theorem execute_dynamic_ok (content : String) (sb : String → SandboxRun) :
    execute_dynamic_strategy (Except.ok content) sb =
      execute_strategy (sb (extract_code content)) := rfl

/-- Unfolding equation: a compiler-call exception is surfaced with the
distinguishing prefix and an empty log. -/
theorem execute_dynamic_err (e : String) (sb : String → SandboxRun) :
    execute_dynamic_strategy (Except.error e) sb =
      ⟨false, "", [], [], some ("Compilation error: " ++ e)⟩ := rfl

/-! ## The claims -/

/-- C1 (counterexample): the execution scope built by `execute_strategy`
contains a binding — the `json` module — that is none of the three tool
capabilities, the context record, or the two accumulators, so the scope does
not expose only those six names; `asyncio` and `logger` are likewise bound. -/
theorem c1_scope_extra_binding :
    execution_namespace.contains ("json", Binding.moduleJson) = true ∧
    claim_allowed_bindings.contains "json" = false ∧
    execution_namespace.contains ("asyncio", Binding.moduleAsyncio) = true ∧
    claim_allowed_bindings.contains "asyncio" = false ∧
    execution_namespace.contains ("logger", Binding.loggerObject) = true ∧
    claim_allowed_bindings.contains "logger" = false := by
  decide

/-- C1 (amended): every binding in the executor's scope is one of the three
tool capabilities, the context record, the two caller-supplied accumulators,
or one of the three extra bindings the source also installs: the `json`
module, the `asyncio` module, and the module `logger`. -/
theorem c1_scope_bindings (k : String) (b : Binding) (h : (k, b) ∈ execution_namespace) :
    k ∈ claim_allowed_bindings ∨ k = "json" ∨ k = "asyncio" ∨ k = "logger" := by
  fin_cases h <;> simp [claim_allowed_bindings]

/-- C1 (witness): the amended bound applied to the `context` binding. -/
theorem c1_scope_bindings_witness :
    "context" ∈ claim_allowed_bindings ∨ "context" = "json" ∨ "context" = "asyncio" ∨
      "context" = "logger" :=
  c1_scope_bindings "context" Binding.contextRecord (by decide)

/-- C2 (failing run evaluated): for the tariffs request, the planner chose
the dynamic branch, the dynamic execution failed (compilation error), no
fallback edge from the dynamic branch to the standard pipeline exists in the
graph — yet the handler's response reports `execution_path = "Simple RAG"`,
relabeling the failed dynamic attempt as the standard path. -/
theorem c2_failed_dynamic_labeled_simple_rag :
    route_after_planner c2StateAfterPlanner.plan = "dynamic_strategy" ∧
    c2FailedResult.success = false ∧
    c2FinalState.udf_result = some ⟨false, none, none,
      some (some "Compilation error: LLM request timed out")⟩ ∧
    (research_response c2FinalState).execution_path = "Simple RAG" ∧
    graph_edges.contains ("dynamic_strategy", "simple_rag") = false ∧
    graph_edges.contains ("dynamic_strategy", "final_report") = true :=
  ⟨rfl, rfl, rfl, rfl, by decide, by decide⟩

/-- C3 (counterexample): strategy code that returns an empty dict yields a
result with `success = true` and an EMPTY report, so neither "success with
non-empty report" nor "failure with non-empty error" holds of it. -/
theorem c3_success_empty_report :
    (execute_strategy emptyDictRun).success = true ∧
    (execute_strategy emptyDictRun).synthesized_report = "" ∧
    c3ClaimedInvariant (execute_strategy emptyDictRun) = false := by
  exact ⟨rfl, rfl, rfl⟩

/-- C3 (amended): for every result produced by strategy execution — directly
by the executor or through `execute_dynamic_strategy` — exactly one of
(`success = true` with no error value) or (`success = false` with an error
value present) holds; the report may be empty even on success. -/
theorem c3_success_error_dichotomy :
    (∀ run : SandboxRun,
      (execute_strategy run).success = true ↔ (execute_strategy run).error = none) ∧
    (∀ (compileCall : Except String String) (sb : String → SandboxRun),
      (execute_dynamic_strategy compileCall sb).success = true ↔
        (execute_dynamic_strategy compileCall sb).error = none) := by
  refine ⟨fun run => (execute_strategy_shape run).1, ?_⟩
  intro compileCall sb
  rcases compileCall with e | content
  · simp [execute_dynamic_err]
  · rw [execute_dynamic_ok]
    exact (execute_strategy_shape _).1

/-- C4 (counterexample): a compiler response containing no extractable code
does NOT fail compilation — `compile_strategy` returns the raw response text
unchanged — and when that text then blows up in the sandbox (a `SyntaxError`
from `exec`), the failed result's error is the raw exception text, without
the distinguishing "Compilation error: " prefix. -/
theorem c4_no_code_response_compiles :
    compile_strategy (Except.ok noCodeResponse) = Except.ok noCodeResponse ∧
    (execute_dynamic_strategy (Except.ok noCodeResponse) syntaxErrorSandbox).success = false ∧
    (execute_dynamic_strategy (Except.ok noCodeResponse) syntaxErrorSandbox).error =
      some "invalid syntax (<string>, line 2)" ∧
    strStartsWith "invalid syntax (<string>, line 2)" "Compilation error: " = false :=
  ⟨rfl, rfl, rfl, by decide⟩

/-- C4 (amended): a strategy-compilation failure arises only when the
compiler-LLM call itself raises; that case is surfaced as a failed result
whose error carries the distinguishing "Compilation error: " prefix and an
empty execution log, and the run still completes (the caller receives a
result, not an exception).  A response with no extractable code compiles
"successfully" to its own raw text and fails later inside the sandbox as a
runtime error. -/
theorem c4_compilation_error_surfacing :
    (∀ content : String,
      compile_strategy (Except.ok content) = Except.ok (extract_code content)) ∧
    (∀ (e : String) (sb : String → SandboxRun),
      execute_dynamic_strategy (Except.error e) sb =
        ⟨false, "", [], [], some ("Compilation error: " ++ e)⟩ ∧
      strStartsWith (optStr (execute_dynamic_strategy (Except.error e) sb).error)
        "Compilation error: " = true) := by
  refine ⟨fun _ => rfl, fun e sb => ⟨rfl, ?_⟩⟩
  show strStartsWith ("Compilation error: " ++ e) "Compilation error: " = true
  simp [strStartsWith, startsWithChars]

/-- C5 (confirmed): every error path of the executor — a raised exception
(including a syntax error from `exec`) or a non-dict return value — produces
a failed result carrying the error message and exactly the entries the code
had appended to the `execution_log` accumulator before failing; in
particular, code that appends two lines and then raises yields exactly those
two lines with `success = false`. -/
theorem c5_failure_preserves_partial_log :
    (∀ (logs : List String) (srcs : List SrcDict) (e : String),
      execute_strategy ⟨logs, srcs, Except.error e⟩ = ⟨false, "", [], logs, some e⟩) ∧
    (∀ (logs : List String) (srcs : List SrcDict) (t : String),
      execute_strategy ⟨logs, srcs, Except.ok (StrategyReturn.nonDict t)⟩ =
        ⟨false, "", [], logs, some ("Strategy must return a dict, got " ++ t)⟩) ∧
    execute_strategy twoLinesThenRaiseRun =
      ⟨false, "", [], ["Searching RAG for tariffs", "Searching web for tariffs"],
       some "KeyError: \x27content\x27"⟩ :=
  ⟨fun _ _ _ => rfl, fun _ _ _ => rfl, rfl⟩

/-- C6 (counterexample): an exception raised by the planning call itself is
NOT recovered — the streaming loop sits outside the `try`, so `planner_node`
propagates the exception instead of defaulting to SIMPLE_RAG, and the run
does not continue past it. -/
theorem c6_call_failure_propagates :
    planner_node (PlannerCall.raised "Planning call timed out") =
      Except.error "Planning call timed out" ∧
    (planner_node (PlannerCall.raised "Planning call timed out")).isOk = false := by
  exact ⟨rfl, rfl⟩

/-- C6 (amended): whenever the planner's RESPONSE cannot be parsed as
structured data — `parse_json_markdown` raised, or the parsed value is not a
dict — the planner returns the fallback update: the plan is the literal
SIMPLE_RAG decision, the fallback log entry is recorded, the node succeeds,
and routing the merged state selects the standard pipeline branch.  An
exception from the planning call itself, by contrast, propagates. -/
theorem c6_unparseable_defaults_to_simple_rag :
    planner_node (PlannerCall.responded none) = Except.ok planner_fallback ∧
    (∀ j : Json, (∀ fields, j ≠ Json.obj fields) →
      planner_node (PlannerCall.responded (some j)) = Except.ok planner_fallback) ∧
    planner_fallback.logs = ["⚠️ Planning error, defaulting to SIMPLE_RAG"] ∧
    (∀ st : HackathonAgentState,
      route_after_planner (applyUpdate st planner_fallback).plan = "simple_rag") := by
  refine ⟨rfl, ?_, rfl, fun st => rfl⟩
  intro j hj
  cases j with
  | obj fields => exact absurd rfl (hj fields)
  | null => rfl
  | bool b => rfl
  | num n => rfl
  | str s => rfl
  | arr items => rfl

/-- C6 (witness): the amended theorem applied to the parsed non-dict `null`. -/
theorem c6_unparseable_witness :
    planner_node (PlannerCall.responded (some Json.null)) = Except.ok planner_fallback :=
  c6_unparseable_defaults_to_simple_rag.2.1 Json.null (fun _ h => Json.noConfusion h)

/-- C7 (confirmed): the router returns the dynamic-strategy branch exactly
when the plan string parses as a JSON object whose `strategy` member is the
string "DYNAMIC_STRATEGY"; every other parsed value, a missing member, and
any parse failure route to the standard pipeline.  (The function is a pure
function of the plan string: in this embedding it is literally a function,
and its source performs only `json.loads` and a field lookup, no I/O.) -/
theorem c7_route_dynamic_iff (plan : String) :
    route_after_planner plan = "dynamic_strategy" ↔
      ∃ fields, json_loads plan = some (Json.obj fields) ∧
        pyDictGet fields "strategy" = some (Json.str "DYNAMIC_STRATEGY") := by
  unfold route_after_planner
  rcases h : json_loads plan with _ | j
  · simp
  · cases j with
    | obj fields =>
      rcases h2 : pyDictGet fields "strategy" with _ | v
      · simp [h2]
      · cases v with
        | str s =>
          by_cases hs : s = "DYNAMIC_STRATEGY"
          · subst hs; simp [h2]
          · simp [h2, hs]
        | null => simp [h2]
        | bool b => simp [h2]
        | num n => simp [h2]
        | arr items => simp [h2]
        | obj f2 => simp [h2]
    | null => simp
    | bool b => simp
    | num n => simp
    | str s => simp
    | arr items => simp

/-- C8 (confirmed): citation formatting in the dynamic-strategy branch is a
pure function of the sources — one line per source, `- [source]` followed by
the `url` value (falling back to `title`, then "N/A") — and on the claimed
example it produces exactly the claimed block.  Determinism is inherent:
`format_citations` is a function, so identical input gives identical output. -/
theorem c8_citation_format :
    format_citations
        [[("source", "web"), ("url", "http://a")], [("source", "rag"), ("title", "doc1")]] =
      "- [web] http://a\n- [rag] doc1" ∧
    (∀ sources : List SrcDict,
      format_citations sources =
        String.mk (List.intercalate "\n".toList ((sources.map citationLine).map String.toList))) :=
  ⟨rfl, fun _ => rfl⟩

/-- C9 (confirmed): every failure branch of the dynamic-strategy node — the
unconfigured-integration branch and the failed-execution branch — returns a
partial update that carries a failed `udf_result` and omits the
`running_summary` and `citations` keys, so the engine's field-level merge
leaves both fields of the state unchanged. -/
theorem c9_failure_leaves_summary_citations (cfg : Bool) (result : UDFExecutionResult)
    (h : cfg = false ∨ result.success = false) :
    (dynamic_strategy_node cfg result).running_summary = none ∧
    (dynamic_strategy_node cfg result).citations = none ∧
    (∃ d, (dynamic_strategy_node cfg result).udf_result = some d ∧ d.success = false) ∧
    (∀ st : HackathonAgentState,
      (applyUpdate st (dynamic_strategy_node cfg result)).running_summary = st.running_summary ∧
      (applyUpdate st (dynamic_strategy_node cfg result)).citations = st.citations) := by
  rcases h with h | h
  · subst h
    exact ⟨rfl, rfl, ⟨_, rfl, rfl⟩, fun st => ⟨rfl, rfl⟩⟩
  · cases cfg with
    | false => exact ⟨rfl, rfl, ⟨_, rfl, rfl⟩, fun st => ⟨rfl, rfl⟩⟩
    | true =>
      simp only [dynamic_strategy_node, h]
      simp [applyUpdate]

/-- C9 (witness): the frame property at a concrete failed result. -/
theorem c9_failure_frame_witness :
    (dynamic_strategy_node true ⟨false, "", [], [], some "boom"⟩).running_summary = none ∧
    (dynamic_strategy_node true ⟨false, "", [], [], some "boom"⟩).citations = none ∧
    (∃ d, (dynamic_strategy_node true ⟨false, "", [], [], some "boom"⟩).udf_result = some d ∧
      d.success = false) ∧
    (∀ st : HackathonAgentState,
      (applyUpdate st (dynamic_strategy_node true ⟨false, "", [], [], some "boom"⟩)).running_summary =
        st.running_summary ∧
      (applyUpdate st (dynamic_strategy_node true ⟨false, "", [], [], some "boom"⟩)).citations =
        st.citations) :=
  c9_failure_leaves_summary_citations true ⟨false, "", [], [], some "boom"⟩ (Or.inr rfl)

/-- C10 (confirmed): every failed result — from a sandbox execution or
validation failure in `execute_strategy`, or from a compilation failure in
`execute_dynamic_strategy` — has an empty synthesized report and an empty
source list. -/
theorem c10_failed_empty_report_and_sources :
    (∀ run : SandboxRun, (execute_strategy run).success = false →
      (execute_strategy run).synthesized_report = "" ∧ (execute_strategy run).sources = []) ∧
    (∀ (compileCall : Except String String) (sb : String → SandboxRun),
      (execute_dynamic_strategy compileCall sb).success = false →
        (execute_dynamic_strategy compileCall sb).synthesized_report = "" ∧
        (execute_dynamic_strategy compileCall sb).sources = []) := by
  refine ⟨fun run => (execute_strategy_shape run).2, ?_⟩
  intro compileCall sb
  rcases compileCall with e | content
  · intro _; exact ⟨rfl, rfl⟩
  · rw [execute_dynamic_ok]
    exact (execute_strategy_shape _).2

/-- C10 (witness): the invariant at the concrete two-lines-then-raise run. -/
theorem c10_failed_witness :
    (execute_strategy twoLinesThenRaiseRun).synthesized_report = "" ∧
    (execute_strategy twoLinesThenRaiseRun).sources = [] :=
  c10_failed_empty_report_and_sources.1 twoLinesThenRaiseRun rfl
